import Mathlib

/-!
Shallow embedding of `napalm_ansible/modules/napalm_install_config.py`.

The module's `main` function is sequential glue: build `module.params` from the
argument spec, merge in the optional `provider` bundle, validate identity
fields, then run the install workflow (open device, optional archive, load
candidate, optional diff, optional candidate archive, commit-or-discard,
close).  We embed it as pure functions over an association-list model of
Python dicts, with the device and filesystem modelled as oracles recording a
trace of external calls.
-/

set_option autoImplicit false

namespace NapalmInstallConfig

/-- Python values as they can occur in `module.params` / the `provider`
bundle.  Parameter values come from Ansible's YAML/JSON argument parsing, so
they are `None`, booleans, numbers, strings or (string-keyed) dicts; in
particular no parameter value is callable. -/
inductive PyVal where
  | none
  | bool (b : Bool)
  | int (n : Int)
  | str (s : String)
  | dict (d : List (String × PyVal))

/-- A Python dict with string keys, as an insertion-ordered association list
with (by convention) distinct keys. -/
abbrev Dict := List (String × PyVal)

/-- Python truthiness (`bool(v)`) for the values we model. -/
def PyVal.truthy : PyVal → Bool
  | .none => false
  | .bool b => b
  | .int n => n != 0
  | .str s => !s.isEmpty
  | .dict d => !d.isEmpty

/-- Python's `v is False`: identity with the singleton `False` object.  Note
`0 is False` and `"" is False` are false in CPython, matching this. -/
def PyVal.isFalse : PyVal → Bool
  | .bool false => true
  | _ => false

/-- Python's `v is None`. -/
def PyVal.isNone : PyVal → Bool
  | .none => true
  | _ => false

/-- Python `x or y`. -/
def pyOr (x y : PyVal) : PyVal := if x.truthy then x else y

/-- `type(v).__name__`, used to render the `TypeError` raised when a value is
called as a function. -/
def PyVal.typeName : PyVal → String
  | .none => "NoneType"
  | .bool _ => "bool"
  | .int _ => "int"
  | .str _ => "str"
  | .dict _ => "dict"

/-- `str(e)` for the `TypeError` raised by `v(...)` when `v` is one of our
(never callable) parameter values. -/
def pyCallTypeError (v : PyVal) : String :=
  "'" ++ v.typeName ++ "' object is not callable"

/-- `module.params["provider"] or {}` (line 209): the provider parameter is
either a dict or `None`; any non-dict (i.e. `None`) collapses to `{}`, and an
empty dict is already `{}`. -/
def toDict : PyVal → Dict
  | .dict d => d
  | _ => []

/-- Dict lookup returning `Option` (`k in d` / guarded `d[k]`). -/
def dictGet? : Dict → String → Option PyVal
  | [], _ => Option.none
  | (k', v) :: rest, k => if k' = k then some v else dictGet? rest k

/-- Python `d.get(k)`: the value if present, else `None`. -/
def dictGet (d : Dict) (k : String) : PyVal :=
  (dictGet? d k).getD PyVal.none

/-- Python `d[k] = v`: replace in place if the key is present (keeping
insertion order), else append. -/
def dictSet : Dict → String → PyVal → Dict
  | [], k, v => [(k, v)]
  | (k', v') :: rest, k, v =>
      if k' = k then (k, v) :: rest else (k', v') :: dictSet rest k v

/-- One iteration of the provider-merge loop (lines 229-231):
`if module.params.get(param) is not False:
   module.params[param] = module.params.get(param) or pvalue`. -/
def mergeStep (params : Dict) (kv : String × PyVal) : Dict :=
  if (dictGet params kv.1).isFalse then params
  else dictSet params kv.1 (pyOr (dictGet params kv.1) kv.2)

/-- The whole loop `for param, pvalue in provider.items(): ...`
(lines 229-231), iterating the provider bundle in insertion order. -/
def mergeProvider (params : Dict) (provider : Dict) : Dict :=
  provider.foldl mergeStep params

/-- Line 227: `provider["hostname"] = provider.get("hostname", None) or
provider.get("host", None)` — accept either alias from the bundle. -/
def adjustProvider (provider : Dict) : Dict :=
  dictSet provider "hostname" (pyOr (dictGet provider "hostname") (dictGet provider "host"))

/-- The caller-supplied module arguments, typed per the `argument_spec`
(lines 186-202).  `Option.none` means the playbook omitted the parameter, so
`AnsibleModule` fills in the declared default (or `None`).  `commit_changes`
is `required=True`.  Ansible's own type checking guarantees the types used
here; arbitrary-valued injection is possible only through the `provider`
dict's entries, which are `PyVal`s. -/
structure ModuleArgs where
  hostname : Option String
  username : Option String
  password : Option String
  provider : Option Dict
  timeout : Option Int
  optional_args : Option Dict
  config_file : Option String
  config : Option String
  dev_os : Option String
  commit_changes : Bool
  replace_config : Option Bool
  diff_file : Option String
  get_diffs : Option Bool
  archive_file : Option String
  candidate_file : Option String

/-- An omitted `str` parameter resolves to `None`. -/
def optStr : Option String → PyVal
  | some s => .str s
  | Option.none => .none

/-- An omitted `dict` parameter with `default=None` resolves to `None`. -/
def optDict : Option Dict → PyVal
  | some d => .dict d
  | Option.none => .none

/-- `module.params` as built by `AnsibleModule` from the `argument_spec`
(lines 185-204): every declared key is present, with the declared default
when the caller omitted it (`timeout` 60, `replace_config` False,
`get_diffs` True, the rest `None`).  Note there is no `"commit_comment"`
entry.  (The `host` alias key is not modelled: it is never read.) -/
def initParams (a : ModuleArgs) : Dict :=
  [("hostname", optStr a.hostname),
   ("username", optStr a.username),
   ("password", optStr a.password),
   ("provider", optDict a.provider),
   ("timeout", .int (a.timeout.getD 60)),
   ("optional_args", optDict a.optional_args),
   ("config_file", optStr a.config_file),
   ("config", optStr a.config),
   ("dev_os", optStr a.dev_os),
   ("commit_changes", .bool a.commit_changes),
   ("replace_config", .bool (a.replace_config.getD false)),
   ("diff_file", optStr a.diff_file),
   ("get_diffs", .bool (a.get_diffs.getD true)),
   ("archive_file", optStr a.archive_file),
   ("candidate_file", optStr a.candidate_file)]

/-- `module.params` after the provider merge (lines 209, 227, 229-231).
The secret-redaction pass (lines 211-224) never writes to `module.params`
(it only updates `module.no_log_values`), so it contributes nothing to the
resolved dictionary; its one observable behaviour — the uncaught
`AttributeError` of line 215 — is modelled by `noLogCrash` in `runMain`. -/
def resolvedParams (a : ModuleArgs) : Dict :=
  mergeProvider (initParams a) (adjustProvider (toDict (dictGet (initParams a) "provider")))

/-- The secret-redaction pass, lines 211-224.  For `param` in
`["password", "secret"]` it reads `provider.get(param)` and — when
`provider.get("optional_args")` is truthy — `provider["optional_args"]
.get(param)` (line 215).  A truthy non-dict `optional_args` entry in the
provider bundle therefore raises an uncaught `AttributeError` (`'…' object
has no attribute 'get'`) on the first iteration, before the merge and before
line 246; this function returns that offending value.  Otherwise the pass
only updates `module.no_log_values` (logging metadata), touching neither
`module.params` nor the device: `module.params["optional_args"]` at line 219
is declared `type="dict"`, so it is a dict or `None` there. -/
def noLogCrash (provider : Dict) : Option PyVal :=
  let oa := dictGet provider "optional_args"
  if oa.truthy then
    match oa with
    | .dict _ => Option.none
    | v => some v
  else Option.none

/-! ## Device and filesystem oracle, call trace -/

/-- One external call made by `main`: device operations, driver resolution and
`save_to_file` writes, tagged by call site. -/
inductive Ev where
  /-- `get_network_driver(dev_os)` (line 267). -/
  | getDriver
  /-- `network_driver(...)` + `device.open()` (lines 272-279). -/
  | openDev
  /-- `device.get_config(retrieve="running")["running"]` (line 285). -/
  | getRunning
  /-- `save_to_file(running_config, archive_file)` (line 286). -/
  | saveArchive (path : PyVal) (content : String)
  /-- `device.load_replace_candidate(filename=config_file)` (line 292). -/
  | loadReplaceFile (f : PyVal)
  /-- `device.load_replace_candidate(config=config)` (line 294). -/
  | loadReplaceConfig (c : PyVal)
  /-- `device.load_merge_candidate(filename=config_file)` (line 296). -/
  | loadMergeFile (f : PyVal)
  /-- `device.load_merge_candidate(config=config)` (line 298). -/
  | loadMergeConfig (c : PyVal)
  /-- `device.compare_config()` (line 306). -/
  | compare
  /-- `save_to_file(diff, diff_file)` (line 312). -/
  | saveDiff (path : PyVal) (content : String)
  /-- `device.get_config(retrieve="candidate")["candidate"]` (line 318). -/
  | getCandidate
  /-- `save_to_file(running_config, candidate_file)` (line 319). -/
  | saveCandidate (path : PyVal) (content : String)
  /-- `device.commit_config(...)` (line 328). -/
  | commit (comment : PyVal)
  /-- `device.discard_config()` (line 325). -/
  | discard
  /-- `device.close()` (line 333). -/
  | close

/-- How the invocation ends: `module.exit_json(changed=..., diff={"prepared":
diff}, msg=diff)` (line 337), `module.fail_json(msg=...)`, or an exception
that no handler in `main` catches (propagating out of `main`). -/
inductive Outcome where
  | exited (changed : Bool) (diffPrepared : Option String) (msg : Option String)
  | failed (msg : String)
  | raised (msg : String)
  deriving DecidableEq

/-- The behaviour of the external world for one run: the result of each
driver/device call (`Except.error e` models the call raising an exception
with message `str(e)`) and of each `save_to_file` write, keyed by the file
argument.  `main` performs each of these calls at most once. -/
structure Device where
  /-- `get_network_driver(dev_os)` result (line 267). -/
  driverR : Except String Unit
  /-- Driver construction + `device.open()` result (lines 272-279). -/
  openR : Except String Unit
  /-- `device.get_config(retrieve="running")["running"]` (line 285). -/
  getRunningR : Except String String
  /-- Result of whichever `load_*_candidate` call is made (lines 291-298). -/
  loadR : Except String Unit
  /-- `device.compare_config()` (line 306). -/
  compareR : Except String String
  /-- `device.get_config(retrieve="candidate")["candidate"]` (line 318). -/
  getCandidateR : Except String String
  /-- `device.discard_config()` (line 325). -/
  discardR : Except String Unit
  /-- `device.close()` (line 333). -/
  closeR : Except String Unit
  /-- `save_to_file(content, filename)` (lines 179-181), keyed by filename. -/
  saveR : PyVal → Except String Unit

/-- `os.path.expanduser(os.path.expandvars(v))` applied under `if v:`
(lines 247-254).  The environment-dependent expansion is abstracted as
`expand`; a falsy value is left alone; a truthy non-string (reachable only by
provider injection) makes the expansion raise — an exception no handler in
`main` catches.  The exception text is abstracted: the concrete Python
message varies with the type (`TypeError: argument of type 'int' is not
iterable` from `expandvars` for numbers and booleans, an `AttributeError`
from `expanduser` for dicts); only the raise/return split is relied on. -/
def expandArg (expand : String → String) (v : PyVal) : Except String PyVal :=
  if v.truthy then
    match v with
    | .str s => .ok (.str (expand s))
    | _ => .error ("TypeError: cannot expand a path value of type '" ++ v.typeName ++ "'")
  else .ok v

/-! ## The workflow stages (lines 283-337)

Each stage returns `.ok` with the events it performed, or `.error` with its
events and the terminal outcome (`fail_json` raises immediately in Ansible,
so a failing stage ends the run). -/

/-- Lines 283-288: optional archive of the running configuration. -/
def archiveStage (archive_file : PyVal) (dev : Device) :
    Except (List Ev × Outcome) (List Ev) :=
  if archive_file.isNone then .ok []
  else
    match dev.getRunningR with
    | .error e => .error ([.getRunning], .failed ("cannot retrieve running config:" ++ e))
    | .ok rc =>
      match dev.saveR archive_file with
      | .error e =>
          .error ([.getRunning, .saveArchive archive_file rc],
            .failed ("cannot retrieve running config:" ++ e))
      | .ok _ => .ok [.getRunning, .saveArchive archive_file rc]

/-- A single `load_*_candidate` call guarded by the `try` of lines 290-302. -/
def loadCall (e : Ev) (dev : Device) : Except (List Ev × Outcome) (List Ev) :=
  match dev.loadR with
  | .error s => .error ([e], .failed ("cannot load config: " ++ s))
  | .ok _ => .ok [e]

/-- Lines 290-302: load the candidate (replace vs merge, file vs inline); if
neither source is truthy, `fail_json` with the config-required message. -/
def loadStage (replace_config config_file config : PyVal) (dev : Device) :
    Except (List Ev × Outcome) (List Ev) :=
  if replace_config.truthy && config_file.truthy then
    loadCall (.loadReplaceFile config_file) dev
  else if replace_config.truthy && config.truthy then
    loadCall (.loadReplaceConfig config) dev
  else if !replace_config.truthy && config_file.truthy then
    loadCall (.loadMergeFile config_file) dev
  else if !replace_config.truthy && config.truthy then
    loadCall (.loadMergeConfig config) dev
  else .error ([], .failed "You have to specify either config or config_file")

/-- Lines 304-314: optional diff computation (`changed = len(diff) > 0`) and
optional diff-file write (`if diff_file is not None and get_diffs:`).
Returns its events together with `changed` and the computed `diff`. -/
def diffStage (get_diffs diff_file : PyVal) (dev : Device) :
    Except (List Ev × Outcome) (List Ev × Bool × Option String) :=
  if get_diffs.truthy then
    match dev.compareR with
    | .error e => .error ([.compare], .failed ("cannot diff config: " ++ e))
    | .ok d =>
      if !diff_file.isNone then
        match dev.saveR diff_file with
        | .error e =>
            .error ([.compare, .saveDiff diff_file d], .failed ("cannot diff config: " ++ e))
        | .ok _ => .ok ([.compare, .saveDiff diff_file d], decide (0 < d.length), some d)
      else .ok ([.compare], decide (0 < d.length), some d)
  else
    .ok ([], true, Option.none)

/-- Lines 316-321: optional archive of the candidate configuration (the
failure message is the source's copy-paste of the running-config one). -/
def candidateStage (candidate_file : PyVal) (dev : Device) :
    Except (List Ev × Outcome) (List Ev) :=
  if candidate_file.isNone then .ok []
  else
    match dev.getCandidateR with
    | .error e => .error ([.getCandidate], .failed ("cannot retrieve running config:" ++ e))
    | .ok cc =>
      match dev.saveR candidate_file with
      | .error e =>
          .error ([.getCandidate, .saveCandidate candidate_file cc],
            .failed ("cannot retrieve running config:" ++ e))
      | .ok _ => .ok [.getCandidate, .saveCandidate candidate_file cc]

/-- Lines 323-330: discard in check mode or when `commit_changes` is falsy;
otherwise, when `changed`, the source executes
`device.commit_config(message("commit_comment"))`.  Evaluating that argument
calls `message` — a parameter value, hence never callable — so a `TypeError`
is raised before `commit_config` itself can run, and the `except` at line 329
turns it into the install failure. -/
def commitStage (checkMode : Bool) (commit_changes message : PyVal) (changed : Bool)
    (dev : Device) : Except (List Ev × Outcome) (List Ev) :=
  if checkMode || !commit_changes.truthy then
    match dev.discardR with
    | .error e => .error ([.discard], .failed ("cannot install config: " ++ e))
    | .ok _ => .ok [.discard]
  else if changed then
    .error ([], .failed ("cannot install config: " ++ pyCallTypeError message))
  else .ok []

/-- Lines 332-335: close the session. -/
def closeStage (dev : Device) : Except (List Ev × Outcome) (List Ev) :=
  match dev.closeR with
  | .error e => .error ([.close], .failed ("cannot close device connection: " ++ e))
  | .ok _ => .ok [.close]

/-- The parameter values `main` reads out of the resolved `module.params`
(lines 233-246), plus `message`, the line-246 value. -/
structure WParams where
  hostname : PyVal
  username : PyVal
  dev_os : PyVal
  password : PyVal
  timeout : PyVal
  config_file : PyVal
  config : PyVal
  commit_changes : PyVal
  replace_config : PyVal
  diff_file : PyVal
  get_diffs : PyVal
  archive_file : PyVal
  candidate_file : PyVal
  message : PyVal

/-- Lines 247-337 of `main`: path expansion, the identity `argument_check`
(in the dict's insertion order hostname, username, dev_os, testing
`val is None`), driver resolution, connect, then the staged workflow.
`optional_args` (lines 261-264) only feeds the driver constructor and is
absorbed into the `openDev` call. -/
def workflow (w : WParams) (checkMode : Bool) (dev : Device) (expand : String → String) :
    List Ev × Outcome :=
  match expandArg expand w.config_file with
  | .error e => ([], .raised e)
  | .ok config_file =>
  match expandArg expand w.diff_file with
  | .error e => ([], .raised e)
  | .ok diff_file =>
  match expandArg expand w.archive_file with
  | .error e => ([], .raised e)
  | .ok archive_file =>
  match expandArg expand w.candidate_file with
  | .error e => ([], .raised e)
  | .ok candidate_file =>
  if w.hostname.isNone then ([], .failed "hostname is required")
  else if w.username.isNone then ([], .failed "username is required")
  else if w.dev_os.isNone then ([], .failed "dev_os is required")
  else
  match dev.driverR with
  | .error e => ([.getDriver], .failed ("Failed to import napalm driver: " ++ e))
  | .ok _ =>
  match dev.openR with
  | .error e => ([.getDriver, .openDev], .failed ("cannot connect to device: " ++ e))
  | .ok _ =>
  let t : List Ev := [.getDriver, .openDev]
  match archiveStage archive_file dev with
  | .error (ts, o) => (t ++ ts, o)
  | .ok ts1 =>
  match loadStage w.replace_config config_file w.config dev with
  | .error (ts, o) => (t ++ ts1 ++ ts, o)
  | .ok ts2 =>
  match diffStage w.get_diffs diff_file dev with
  | .error (ts, o) => (t ++ ts1 ++ ts2 ++ ts, o)
  | .ok (ts3, changed, diff) =>
  match candidateStage candidate_file dev with
  | .error (ts, o) => (t ++ ts1 ++ ts2 ++ ts3 ++ ts, o)
  | .ok ts4 =>
  match commitStage checkMode w.commit_changes w.message changed dev with
  | .error (ts, o) => (t ++ ts1 ++ ts2 ++ ts3 ++ ts4 ++ ts, o)
  | .ok ts5 =>
  match closeStage dev with
  | .error (ts, o) => (t ++ ts1 ++ ts2 ++ ts3 ++ ts4 ++ ts5 ++ ts, o)
  | .ok ts6 =>
      (t ++ ts1 ++ ts2 ++ ts3 ++ ts4 ++ ts5 ++ ts6, .exited changed diff diff)

/-- The parameter reads of lines 233-245 against the resolved params (every
key read there is declared in the `argument_spec`, so present), paired with
the line-246 `message` value. -/
def wParamsOf (p : Dict) (message : PyVal) : WParams :=
  { hostname := dictGet p "hostname"
    username := dictGet p "username"
    dev_os := dictGet p "dev_os"
    password := dictGet p "password"
    timeout := dictGet p "timeout"
    config_file := dictGet p "config_file"
    config := dictGet p "config"
    commit_changes := dictGet p "commit_changes"
    replace_config := dictGet p "replace_config"
    diff_file := dictGet p "diff_file"
    get_diffs := dictGet p "get_diffs"
    archive_file := dictGet p "archive_file"
    candidate_file := dictGet p "candidate_file"
    message := message }

/-- `main` (lines 184-337): build `module.params`, take the provider bundle
(line 209), run the secret-redaction pass (lines 211-224, which raises an
uncaught `AttributeError` at line 215 when the bundle carries a truthy
non-dict `optional_args`), merge the bundle (lines 227-231), read the
parameters back (lines 233-245 always find their keys, which are all
declared in the `argument_spec`), then line 246 reads
`module.params["commit_comment"]` — a key the `argument_spec` never declares,
so the bracket lookup raises an uncaught `KeyError` unless the provider-merge
loop happened to create the key from a provider entry. -/
def runMain (a : ModuleArgs) (checkMode : Bool) (dev : Device) (expand : String → String) :
    List Ev × Outcome :=
  let provider := toDict (dictGet (initParams a) "provider")
  match noLogCrash provider with
  | some v =>
      ([], Outcome.raised
        ("AttributeError: '" ++ v.typeName ++ "' object has no attribute 'get'"))
  | Option.none =>
  let p := resolvedParams a
  match dictGet? p "commit_comment" with
  | Option.none => ([], Outcome.raised "KeyError: 'commit_comment'")
  | some message => workflow (wParamsOf p message) checkMode dev expand

/-! ## Dictionary and merge lemmas -/

theorem dictGet?_dictSet_self (d : Dict) (k : String) (v : PyVal) :
    dictGet? (dictSet d k v) k = some v := by
  induction d with
  | nil => simp [dictSet, dictGet?]
  | cons hd tl ih =>
      obtain ⟨k', v'⟩ := hd
      by_cases h : k' = k <;> simp [dictSet, dictGet?, h, ih]

theorem dictGet_dictSet_self (d : Dict) (k : String) (v : PyVal) :
    dictGet (dictSet d k v) k = v := by
  unfold dictGet
  rw [dictGet?_dictSet_self]
  rfl

theorem dictGet?_dictSet_ne (d : Dict) (k k' : String) (v : PyVal) (h : k' ≠ k) :
    dictGet? (dictSet d k v) k' = dictGet? d k' := by
  induction d with
  | nil => simp [dictSet, dictGet?, Ne.symm h]
  | cons hd tl ih =>
      obtain ⟨k₀, v₀⟩ := hd
      by_cases h₀ : k₀ = k
      · subst h₀
        simp [dictSet, dictGet?, Ne.symm h]
      · simp only [dictSet, if_neg h₀, dictGet?, ih]

theorem mem_keys_of_mem_keys_dictSet (d : Dict) (k k' : String) (v : PyVal) :
    k' ∈ (dictSet d k v).map Prod.fst → k' = k ∨ k' ∈ d.map Prod.fst := by
  induction d with
  | nil =>
      intro h
      left
      simpa [dictSet] using h
  | cons hd tl ih =>
      obtain ⟨k₀, v₀⟩ := hd
      intro h
      by_cases h₀ : k₀ = k
      · rcases (by simpa [dictSet, h₀] using h : k' = k ∨ k' ∈ tl.map Prod.fst) with h' | h'
        · exact Or.inl h'
        · exact Or.inr (by simp [h'])
      · rcases
          (by simpa [dictSet, h₀] using h :
            k' = k₀ ∨ k' ∈ (dictSet tl k v).map Prod.fst) with h' | h'
        · exact Or.inr (by simp [h'])
        · rcases ih h' with h'' | h''
          · exact Or.inl h''
          · exact Or.inr (by simp [h''])

theorem dictGet?_mergeStep_ne (params : Dict) (kv : String × PyVal) (k : String)
    (h : k ≠ kv.1) : dictGet? (mergeStep params kv) k = dictGet? params k := by
  unfold mergeStep
  split
  · rfl
  · exact dictGet?_dictSet_ne _ _ _ _ h

theorem dictGet_mergeStep_ne (params : Dict) (kv : String × PyVal) (k : String)
    (h : k ≠ kv.1) : dictGet (mergeStep params kv) k = dictGet params k := by
  unfold dictGet
  rw [dictGet?_mergeStep_ne _ _ _ h]

theorem mergeProvider_nil (params : Dict) : mergeProvider params [] = params := rfl

theorem mergeProvider_cons (params : Dict) (kv : String × PyVal) (rest : Dict) :
    mergeProvider params (kv :: rest) = mergeProvider (mergeStep params kv) rest := rfl

/-- A key a provider entry never names keeps its lookup through the merge. -/
theorem dictGet?_mergeProvider_of_notMem : ∀ (provider params : Dict) (k : String),
    k ∉ provider.map Prod.fst →
    dictGet? (mergeProvider params provider) k = dictGet? params k := by
  intro provider
  induction provider with
  | nil => intro params k _; rfl
  | cons kv rest ih =>
      intro params k h
      rw [mergeProvider_cons, ih _ _ (by simp_all),
        dictGet?_mergeStep_ne _ _ _ (by simp_all)]

/-- One merge iteration leaves a truthy current value unchanged
(`x or pvalue = x` when `x` is truthy, and a truthy value is never `False`). -/
theorem dictGet_mergeStep_of_truthy (params : Dict) (kv : String × PyVal) (k : String)
    (h : (dictGet params k).truthy = true) :
    dictGet (mergeStep params kv) k = dictGet params k := by
  by_cases hk : k = kv.1
  · subst hk
    unfold mergeStep
    split
    · rfl
    · rw [dictGet_dictSet_self]
      simp [pyOr, h]
  · exact dictGet_mergeStep_ne _ _ _ hk

theorem dictGet_mergeProvider_of_truthy : ∀ (provider params : Dict) (k : String),
    (dictGet params k).truthy = true →
    dictGet (mergeProvider params provider) k = dictGet params k := by
  intro provider
  induction provider with
  | nil => intro params k _; rfl
  | cons kv rest ih =>
      intro params k h
      rw [mergeProvider_cons, ih _ _ (by rw [dictGet_mergeStep_of_truthy _ _ _ h]; exact h),
        dictGet_mergeStep_of_truthy _ _ _ h]

/-- One merge iteration keeps a boolean current value: `False` is skipped by
the `is not False` guard, `True` is truthy so `or` keeps it. -/
theorem dictGet_mergeStep_of_bool (params : Dict) (kv : String × PyVal) (k : String)
    (b : Bool) (h : dictGet params k = PyVal.bool b) :
    dictGet (mergeStep params kv) k = PyVal.bool b := by
  by_cases hk : k = kv.1
  · subst hk
    unfold mergeStep
    cases b with
    | false => simp [h, PyVal.isFalse]
    | true =>
        rw [h]
        simp only [PyVal.isFalse, Bool.false_eq_true, if_false, pyOr, PyVal.truthy, if_true,
          dictGet_dictSet_self]
  · rw [dictGet_mergeStep_ne _ _ _ hk]
    exact h

/-- The provider bundle can never change a boolean parameter value. -/
theorem dictGet_mergeProvider_of_bool : ∀ (provider params : Dict) (k : String) (b : Bool),
    dictGet params k = PyVal.bool b →
    dictGet (mergeProvider params provider) k = PyVal.bool b := by
  intro provider
  induction provider with
  | nil => intro params k b h; exact h
  | cons kv rest ih =>
      intro params k b h
      rw [mergeProvider_cons]
      exact ih _ _ _ (dictGet_mergeStep_of_bool _ _ _ _ h)

theorem PyVal.isFalse_eq_false {v : PyVal} (h : v ≠ PyVal.bool false) :
    v.isFalse = false := by
  cases v with
  | bool b =>
      cases b with
      | false => exact absurd rfl h
      | true => rfl
  | none => rfl
  | int n => rfl
  | str s => rfl
  | dict d => rfl

/-- When the current value is falsy but not the `False` object, the guard
passes and `x or pvalue` yields the provider's value: the bundle wins.  The
key's single provider entry (keys are distinct) determines the result. -/
theorem dictGet_mergeProvider_of_falsy : ∀ (provider params : Dict) (k : String) (pv : PyVal),
    (k, pv) ∈ provider → (provider.map Prod.fst).Nodup →
    (dictGet params k).truthy = false → dictGet params k ≠ PyVal.bool false →
    dictGet (mergeProvider params provider) k = pv := by
  intro provider
  induction provider with
  | nil => intro params k pv hmem; simp at hmem
  | cons kv rest ih =>
      intro params k pv hmem hnd hfalsy hnotFalse
      rw [mergeProvider_cons]
      have hnd' : kv.1 ∉ rest.map Prod.fst ∧ (rest.map Prod.fst).Nodup := by
        rw [List.map_cons, List.nodup_cons] at hnd
        exact hnd
      rcases List.mem_cons.mp hmem with heq | hmem'
      · subst heq
        have hk : k ∉ rest.map Prod.fst := hnd'.1
        have hstep : dictGet (mergeStep params (k, pv)) k = pv := by
          unfold mergeStep
          simp only [PyVal.isFalse_eq_false hnotFalse, Bool.false_eq_true, if_false,
            dictGet_dictSet_self, pyOr, hfalsy]
        unfold dictGet
        rw [dictGet?_mergeProvider_of_notMem rest _ k hk]
        exact hstep
      · have hkrest : k ∈ rest.map Prod.fst :=
          List.mem_map.mpr ⟨(k, pv), hmem', rfl⟩
        have hkne : k ≠ kv.1 := by
          intro hcontra
          rw [hcontra] at hkrest
          exact hnd'.1 hkrest
        have hpres : dictGet (mergeStep params kv) k = dictGet params k :=
          dictGet_mergeStep_ne params kv k hkne
        exact ih (mergeStep params kv) k pv hmem' hnd'.2
          (by rw [hpres]; exact hfalsy) (by rw [hpres]; exact hnotFalse)

/-! ## Facts about the initial and resolved parameter dictionaries -/

theorem dictGet_initParams_timeout (a : ModuleArgs) :
    dictGet (initParams a) "timeout" = PyVal.int (a.timeout.getD 60) := rfl

theorem dictGet_initParams_get_diffs (a : ModuleArgs) :
    dictGet (initParams a) "get_diffs" = PyVal.bool (a.get_diffs.getD true) := rfl

theorem dictGet_initParams_replace_config (a : ModuleArgs) :
    dictGet (initParams a) "replace_config" = PyVal.bool (a.replace_config.getD false) := rfl

theorem dictGet_initParams_commit_changes (a : ModuleArgs) :
    dictGet (initParams a) "commit_changes" = PyVal.bool a.commit_changes := rfl

theorem dictGet?_initParams_commit_comment (a : ModuleArgs) :
    dictGet? (initParams a) "commit_comment" = Option.none := rfl

theorem toDict_dictGet_initParams_provider (a : ModuleArgs) :
    toDict (dictGet (initParams a) "provider") = a.provider.getD [] := by
  have h : dictGet (initParams a) "provider" = optDict a.provider := rfl
  rw [h]
  cases a.provider <;> rfl

/-- The `"commit_comment"` key reaches the resolved parameters only through a
provider entry: with no such entry, line 246's lookup finds nothing. -/
theorem dictGet?_resolvedParams_commit_comment_none (a : ModuleArgs)
    (h : "commit_comment" ∉ (a.provider.getD []).map Prod.fst) :
    dictGet? (resolvedParams a) "commit_comment" = Option.none := by
  unfold resolvedParams
  rw [toDict_dictGet_initParams_provider]
  rw [dictGet?_mergeProvider_of_notMem]
  · exact dictGet?_initParams_commit_comment a
  · intro hmem
    rcases mem_keys_of_mem_keys_dictSet _ _ _ _ hmem with h' | h'
    · exact absurd h' (by decide)
    · exact h h'

/-- The resolved `commit_changes` is always the caller's (required, boolean)
`commit_changes`: the provider bundle cannot override a boolean. -/
theorem resolvedParams_commit_changes (a : ModuleArgs) :
    dictGet (resolvedParams a) "commit_changes" = PyVal.bool a.commit_changes :=
  dictGet_mergeProvider_of_bool _ _ _ _ (dictGet_initParams_commit_changes a)

/-- The resolved `get_diffs` is always the caller's value (default `True`). -/
theorem resolvedParams_get_diffs (a : ModuleArgs) :
    dictGet (resolvedParams a) "get_diffs" = PyVal.bool (a.get_diffs.getD true) :=
  dictGet_mergeProvider_of_bool _ _ _ _ (dictGet_initParams_get_diffs a)

/-! ## Event classifiers and per-stage trace lemmas -/

/-- Is this event a `commit_config` call? -/
def Ev.isCommit : Ev → Bool
  | .commit _ => true
  | _ => false

/-- Is this event a `discard_config` call? -/
def Ev.isDiscard : Ev → Bool
  | .discard => true
  | _ => false

/-- Is this event a `device.close()` call? -/
def Ev.isClose : Ev → Bool
  | .close => true
  | _ => false

/-- Is this event a `compare_config` call? -/
def Ev.isCompare : Ev → Bool
  | .compare => true
  | _ => false

/-- Is this event the diff-file write? -/
def Ev.isSaveDiff : Ev → Bool
  | .saveDiff _ _ => true
  | _ => false

/-- The events a stage performed, whether it succeeded or failed. -/
def stTrace : Except (List Ev × Outcome) (List Ev) → List Ev
  | .ok ts => ts
  | .error (ts, _) => ts

/-- The events the diff stage performed, whether it succeeded or failed. -/
def stTrace3 : Except (List Ev × Outcome) (List Ev × Bool × Option String) → List Ev
  | .ok (ts, _, _) => ts
  | .error (ts, _) => ts

theorem archiveStage_events (af : PyVal) (dev : Device) :
    ∀ e ∈ stTrace (archiveStage af dev),
      (e.isCommit || e.isDiscard || e.isClose || e.isCompare || e.isSaveDiff) = false := by
  unfold archiveStage
  split
  · intro e he
    simp [stTrace] at he
  · split
    · intro e he
      simp only [stTrace, List.mem_singleton] at he
      subst he
      rfl
    · split <;> intro e he <;>
        simp only [stTrace, List.mem_cons, List.mem_singleton, List.not_mem_nil,
          or_false] at he <;>
        rcases he with rfl | rfl <;> rfl

theorem loadCall_events (ev : Ev) (dev : Device) :
    ∀ e ∈ stTrace (loadCall ev dev), e = ev := by
  unfold loadCall
  split <;> intro e he <;>
    simp only [stTrace, List.mem_singleton] at he <;> exact he

theorem loadStage_events (rc cf c : PyVal) (dev : Device) :
    ∀ e ∈ stTrace (loadStage rc cf c dev),
      (e.isCommit || e.isDiscard || e.isClose || e.isCompare || e.isSaveDiff) = false := by
  unfold loadStage
  split
  · intro e he
    rw [loadCall_events _ _ _ he]
    rfl
  split
  · intro e he
    rw [loadCall_events _ _ _ he]
    rfl
  split
  · intro e he
    rw [loadCall_events _ _ _ he]
    rfl
  split
  · intro e he
    rw [loadCall_events _ _ _ he]
    rfl
  · intro e he
    simp [stTrace] at he

theorem diffStage_events (gd df : PyVal) (dev : Device) :
    ∀ e ∈ stTrace3 (diffStage gd df dev),
      (e.isCommit || e.isDiscard || e.isClose) = false := by
  unfold diffStage
  split
  · split
    · intro e he
      simp only [stTrace3, List.mem_singleton] at he
      subst he
      rfl
    · split
      · split <;> intro e he <;>
          simp only [stTrace3, List.mem_cons, List.mem_singleton, List.not_mem_nil,
            or_false] at he <;>
          rcases he with rfl | rfl <;> rfl
      · intro e he
        simp only [stTrace3, List.mem_singleton] at he
        subst he
        rfl
  · intro e he
    simp [stTrace3] at he

theorem candidateStage_events (cf : PyVal) (dev : Device) :
    ∀ e ∈ stTrace (candidateStage cf dev),
      (e.isCommit || e.isDiscard || e.isClose || e.isCompare || e.isSaveDiff) = false := by
  unfold candidateStage
  split
  · intro e he
    simp [stTrace] at he
  · split
    · intro e he
      simp only [stTrace, List.mem_singleton] at he
      subst he
      rfl
    · split <;> intro e he <;>
        simp only [stTrace, List.mem_cons, List.mem_singleton, List.not_mem_nil,
          or_false] at he <;>
        rcases he with rfl | rfl <;> rfl

/-- The commit/discard stage can only ever perform a discard: on the commit
branch the `message("commit_comment")` argument raises before
`commit_config` is called. -/
theorem commitStage_events (cm : Bool) (cc m : PyVal) (ch : Bool) (dev : Device) :
    ∀ e ∈ stTrace (commitStage cm cc m ch dev), e = Ev.discard := by
  unfold commitStage
  split
  · split <;> intro e he <;>
      simp only [stTrace, List.mem_singleton] at he <;> exact he
  · split <;> intro e he <;> simp [stTrace] at he

theorem closeStage_events (dev : Device) :
    ∀ e ∈ stTrace (closeStage dev), e = Ev.close := by
  unfold closeStage
  split <;> intro e he <;>
    simp only [stTrace, List.mem_singleton] at he <;> exact he

/-- In check mode or with falsy `commit_changes`, a successful commit/discard
stage is exactly one discard. -/
theorem commitStage_ok_dryrun (cm : Bool) (cc m : PyVal) (ch : Bool) (dev : Device)
    (h : (cm || !cc.truthy) = true) (ts : List Ev)
    (hok : commitStage cm cc m ch dev = .ok ts) : ts = [Ev.discard] := by
  unfold commitStage at hok
  rw [if_pos h] at hok
  cases hd : dev.discardR <;> rw [hd] at hok <;> simp_all

/-- A successful close stage is exactly one close call. -/
theorem closeStage_ok (dev : Device) (ts : List Ev)
    (hok : closeStage dev = .ok ts) : ts = [Ev.close] := by
  unfold closeStage at hok
  cases hd : dev.closeR <;> rw [hd] at hok <;> simp_all

/-- With diffing disabled the diff stage does nothing and reports
`changed = True`, `diff = None`. -/
theorem diffStage_not_truthy (gd df : PyVal) (dev : Device)
    (h : gd.truthy = false) :
    diffStage gd df dev = .ok ([], true, Option.none) := by
  unfold diffStage
  rw [h]
  rfl

/-- With diffing enabled and a successful compare, a successful diff stage
reports `changed = len(diff) > 0` and the diff text. -/
theorem diffStage_ok_changed (gd df : PyVal) (dev : Device) (s : String)
    (hgd : gd.truthy = true) (hcmp : dev.compareR = .ok s)
    (ts : List Ev) (ch : Bool) (d : Option String)
    (hok : diffStage gd df dev = .ok (ts, ch, d)) :
    ch = decide (0 < s.length) ∧ d = some s := by
  unfold diffStage at hok
  rw [hgd, hcmp] at hok
  simp only [if_true] at hok
  split at hok
  · cases hs : dev.saveR df <;> rw [hs] at hok <;> simp_all
  · simp_all

/-! ## Workflow-level decomposition lemmas -/

theorem stTrace_ok (ts : List Ev) : stTrace (.ok ts) = ts := rfl

theorem stTrace_error (ts : List Ev) (o : Outcome) : stTrace (.error (ts, o)) = ts := rfl

theorem stTrace3_ok (ts : List Ev) (ch : Bool) (d : Option String) :
    stTrace3 (.ok (ts, ch, d)) = ts := rfl

theorem stTrace3_error (ts : List Ev) (o : Outcome) : stTrace3 (.error (ts, o)) = ts := rfl

/-- Every event of a run's trace belongs to one of the call sites, with the
stage inputs as they were passed (in particular the diff stage always
receives `w.get_diffs` and the commit stage `w.commit_changes` and
`w.message`). -/
theorem mem_workflow (w : WParams) (cm : Bool) (dev : Device) (expand : String → String) :
    ∀ e ∈ (workflow w cm dev expand).1,
      e = Ev.getDriver ∨ e = Ev.openDev ∨
      (∃ af, e ∈ stTrace (archiveStage af dev)) ∨
      (∃ cf, e ∈ stTrace (loadStage w.replace_config cf w.config dev)) ∨
      (∃ df, e ∈ stTrace3 (diffStage w.get_diffs df dev)) ∨
      (∃ cf, e ∈ stTrace (candidateStage cf dev)) ∨
      (∃ ch, e ∈ stTrace (commitStage cm w.commit_changes w.message ch dev)) ∨
      e ∈ stTrace (closeStage dev) := by
  intro e he
  unfold workflow at he
  cases h1 : expandArg expand w.config_file with
  | error e1 => simp [h1] at he
  | ok cf =>
  simp only [h1] at he
  cases h2 : expandArg expand w.diff_file with
  | error e2 => simp [h2] at he
  | ok df =>
  simp only [h2] at he
  cases h3 : expandArg expand w.archive_file with
  | error e3 => simp [h3] at he
  | ok af =>
  simp only [h3] at he
  cases h4 : expandArg expand w.candidate_file with
  | error e4 => simp [h4] at he
  | ok caf =>
  simp only [h4] at he
  by_cases hh : w.hostname.isNone
  · simp [hh] at he
  simp only [hh, Bool.false_eq_true, if_false] at he
  by_cases hu : w.username.isNone
  · simp [hu] at he
  simp only [hu, Bool.false_eq_true, if_false] at he
  by_cases ho : w.dev_os.isNone
  · simp [ho] at he
  simp only [ho, Bool.false_eq_true, if_false] at he
  cases h5 : dev.driverR with
  | error e5 =>
      simp [h5, List.mem_singleton] at he
      exact Or.inl he
  | ok u5 =>
  simp only [h5] at he
  cases h6 : dev.openR with
  | error e6 =>
      rcases (by simpa [h6] using he : e = Ev.getDriver ∨ e = Ev.openDev) with h | h
      · exact Or.inl h
      · exact Or.inr (Or.inl h)
  | ok u6 =>
  simp only [h6] at he
  cases h7 : archiveStage af dev with
  | error p7 =>
      obtain ⟨ts7, o7⟩ := p7
      rcases (by simpa [h7, List.mem_append] using he :
          e = Ev.getDriver ∨ e = Ev.openDev ∨ e ∈ ts7) with h | h | h
      · exact Or.inl h
      · exact Or.inr (Or.inl h)
      · exact Or.inr (Or.inr (Or.inl ⟨af, by simpa only [h7, stTrace] using h⟩))
  | ok ts1 =>
  simp only [h7] at he
  cases h8 : loadStage w.replace_config cf w.config dev with
  | error p8 =>
      obtain ⟨ts8, o8⟩ := p8
      rcases (by simpa [h8, List.mem_append, or_assoc] using he :
          e = Ev.getDriver ∨ e = Ev.openDev ∨ e ∈ ts1 ∨ e ∈ ts8) with h | h | h | h
      · exact Or.inl h
      · exact Or.inr (Or.inl h)
      · exact Or.inr (Or.inr (Or.inl ⟨af, by simpa only [h7, stTrace] using h⟩))
      · exact Or.inr (Or.inr (Or.inr (Or.inl ⟨cf, by simpa only [h8, stTrace] using h⟩)))
  | ok ts2 =>
  simp only [h8] at he
  cases h9 : diffStage w.get_diffs df dev with
  | error p9 =>
      obtain ⟨ts9, o9⟩ := p9
      rcases (by simpa [h9, List.mem_append, or_assoc] using he :
          e = Ev.getDriver ∨ e = Ev.openDev ∨ e ∈ ts1 ∨ e ∈ ts2 ∨ e ∈ ts9) with
        h | h | h | h | h
      · exact Or.inl h
      · exact Or.inr (Or.inl h)
      · exact Or.inr (Or.inr (Or.inl ⟨af, by simpa only [h7, stTrace] using h⟩))
      · exact Or.inr (Or.inr (Or.inr (Or.inl ⟨cf, by simpa only [h8, stTrace] using h⟩)))
      · exact Or.inr (Or.inr (Or.inr (Or.inr (Or.inl
          ⟨df, by simpa only [h9, stTrace3] using h⟩))))
  | ok p9 =>
  obtain ⟨ts3, changed, diff⟩ := p9
  simp only [h9] at he
  cases h10 : candidateStage caf dev with
  | error p10 =>
      obtain ⟨ts10, o10⟩ := p10
      rcases (by simpa [h10, List.mem_append, or_assoc] using he :
          e = Ev.getDriver ∨ e = Ev.openDev ∨ e ∈ ts1 ∨ e ∈ ts2 ∨ e ∈ ts3 ∨ e ∈ ts10) with
        h | h | h | h | h | h
      · exact Or.inl h
      · exact Or.inr (Or.inl h)
      · exact Or.inr (Or.inr (Or.inl ⟨af, by simpa only [h7, stTrace] using h⟩))
      · exact Or.inr (Or.inr (Or.inr (Or.inl ⟨cf, by simpa only [h8, stTrace] using h⟩)))
      · exact Or.inr (Or.inr (Or.inr (Or.inr (Or.inl
          ⟨df, by simpa only [h9, stTrace3] using h⟩))))
      · exact Or.inr (Or.inr (Or.inr (Or.inr (Or.inr (Or.inl
          ⟨caf, by simpa only [h10, stTrace] using h⟩)))))
  | ok ts4 =>
  simp only [h10] at he
  cases h11 : commitStage cm w.commit_changes w.message changed dev with
  | error p11 =>
      obtain ⟨ts11, o11⟩ := p11
      rcases (by simpa [h11, List.mem_append, or_assoc] using he :
          e = Ev.getDriver ∨ e = Ev.openDev ∨ e ∈ ts1 ∨ e ∈ ts2 ∨ e ∈ ts3 ∨ e ∈ ts4 ∨
            e ∈ ts11) with h | h | h | h | h | h | h
      · exact Or.inl h
      · exact Or.inr (Or.inl h)
      · exact Or.inr (Or.inr (Or.inl ⟨af, by simpa only [h7, stTrace] using h⟩))
      · exact Or.inr (Or.inr (Or.inr (Or.inl ⟨cf, by simpa only [h8, stTrace] using h⟩)))
      · exact Or.inr (Or.inr (Or.inr (Or.inr (Or.inl
          ⟨df, by simpa only [h9, stTrace3] using h⟩))))
      · exact Or.inr (Or.inr (Or.inr (Or.inr (Or.inr (Or.inl
          ⟨caf, by simpa only [h10, stTrace] using h⟩)))))
      · exact Or.inr (Or.inr (Or.inr (Or.inr (Or.inr (Or.inr (Or.inl
          ⟨changed, by simpa only [h11, stTrace] using h⟩))))))
  | ok ts5 =>
  simp only [h11] at he
  cases h12 : closeStage dev with
  | error p12 =>
      obtain ⟨ts12, o12⟩ := p12
      rcases (by simpa [h12, List.mem_append, or_assoc] using he :
          e = Ev.getDriver ∨ e = Ev.openDev ∨ e ∈ ts1 ∨ e ∈ ts2 ∨ e ∈ ts3 ∨ e ∈ ts4 ∨
            e ∈ ts5 ∨ e ∈ ts12) with h | h | h | h | h | h | h | h
      · exact Or.inl h
      · exact Or.inr (Or.inl h)
      · exact Or.inr (Or.inr (Or.inl ⟨af, by simpa only [h7, stTrace] using h⟩))
      · exact Or.inr (Or.inr (Or.inr (Or.inl ⟨cf, by simpa only [h8, stTrace] using h⟩)))
      · exact Or.inr (Or.inr (Or.inr (Or.inr (Or.inl
          ⟨df, by simpa only [h9, stTrace3] using h⟩))))
      · exact Or.inr (Or.inr (Or.inr (Or.inr (Or.inr (Or.inl
          ⟨caf, by simpa only [h10, stTrace] using h⟩)))))
      · exact Or.inr (Or.inr (Or.inr (Or.inr (Or.inr (Or.inr (Or.inl
          ⟨changed, by simpa only [h11, stTrace] using h⟩))))))
      · exact Or.inr (Or.inr (Or.inr (Or.inr (Or.inr (Or.inr (Or.inr
          (by simpa only [h12, stTrace] using h)))))))
  | ok ts6 =>
  rcases (by simpa [h12, List.mem_append, or_assoc] using he :
      e = Ev.getDriver ∨ e = Ev.openDev ∨ e ∈ ts1 ∨ e ∈ ts2 ∨ e ∈ ts3 ∨ e ∈ ts4 ∨
        e ∈ ts5 ∨ e ∈ ts6) with h | h | h | h | h | h | h | h
  · exact Or.inl h
  · exact Or.inr (Or.inl h)
  · exact Or.inr (Or.inr (Or.inl ⟨af, by simpa only [h7, stTrace] using h⟩))
  · exact Or.inr (Or.inr (Or.inr (Or.inl ⟨cf, by simpa only [h8, stTrace] using h⟩)))
  · exact Or.inr (Or.inr (Or.inr (Or.inr (Or.inl ⟨df, by simpa only [h9, stTrace3] using h⟩))))
  · exact Or.inr (Or.inr (Or.inr (Or.inr (Or.inr (Or.inl
      ⟨caf, by simpa only [h10, stTrace] using h⟩)))))
  · exact Or.inr (Or.inr (Or.inr (Or.inr (Or.inr (Or.inr (Or.inl
      ⟨changed, by simpa only [h11, stTrace] using h⟩))))))
  · exact Or.inr (Or.inr (Or.inr (Or.inr (Or.inr (Or.inr (Or.inr
      (by simpa only [h12, stTrace] using h)))))))

theorem archiveStage_error_shape (af : PyVal) (dev : Device) (ts : List Ev) (o : Outcome)
    (h : archiveStage af dev = .error (ts, o)) : ∃ s, o = Outcome.failed s := by
  unfold archiveStage at h
  repeat' split at h
  all_goals try simp_all
  all_goals exact ⟨_, h.2.symm⟩

theorem loadStage_error_shape (rc cf c : PyVal) (dev : Device) (ts : List Ev) (o : Outcome)
    (h : loadStage rc cf c dev = .error (ts, o)) : ∃ s, o = Outcome.failed s := by
  unfold loadStage loadCall at h
  repeat' split at h
  all_goals try simp_all
  all_goals exact ⟨_, h.2.symm⟩

theorem diffStage_error_shape (gd df : PyVal) (dev : Device) (ts : List Ev) (o : Outcome)
    (h : diffStage gd df dev = .error (ts, o)) : ∃ s, o = Outcome.failed s := by
  unfold diffStage at h
  repeat' split at h
  all_goals try simp_all
  all_goals exact ⟨_, h.2.symm⟩

theorem candidateStage_error_shape (cf : PyVal) (dev : Device) (ts : List Ev) (o : Outcome)
    (h : candidateStage cf dev = .error (ts, o)) : ∃ s, o = Outcome.failed s := by
  unfold candidateStage at h
  repeat' split at h
  all_goals try simp_all
  all_goals exact ⟨_, h.2.symm⟩

theorem commitStage_error_shape (cm : Bool) (cc m : PyVal) (ch : Bool) (dev : Device)
    (ts : List Ev) (o : Outcome)
    (h : commitStage cm cc m ch dev = .error (ts, o)) : ∃ s, o = Outcome.failed s := by
  unfold commitStage at h
  repeat' split at h
  all_goals try simp_all
  all_goals exact ⟨_, h.2.symm⟩

theorem closeStage_error_shape (dev : Device) (ts : List Ev) (o : Outcome)
    (h : closeStage dev = .error (ts, o)) : ∃ s, o = Outcome.failed s := by
  unfold closeStage at h
  repeat' split at h
  all_goals try simp_all
  all_goals exact ⟨_, h.2.symm⟩

/-- A run that reaches `exit_json` passed every stage: all expansions and
stages succeeded, the diff stage produced the reported `changed`/diff pair,
the message equals the diff payload, and the trace is the concatenation of
the stage traces followed by exactly one close. -/
theorem workflow_exited (w : WParams) (cm : Bool) (dev : Device) (expand : String → String)
    (tr : List Ev) (ch : Bool) (d m : Option String)
    (hx : workflow w cm dev expand = (tr, Outcome.exited ch d m)) :
    m = d ∧
    ∃ cf df af caf ts1 ts2 ts3 ts4 ts5,
      expandArg expand w.config_file = .ok cf ∧
      expandArg expand w.diff_file = .ok df ∧
      expandArg expand w.archive_file = .ok af ∧
      expandArg expand w.candidate_file = .ok caf ∧
      archiveStage af dev = .ok ts1 ∧
      loadStage w.replace_config cf w.config dev = .ok ts2 ∧
      diffStage w.get_diffs df dev = .ok (ts3, ch, d) ∧
      candidateStage caf dev = .ok ts4 ∧
      commitStage cm w.commit_changes w.message ch dev = .ok ts5 ∧
      closeStage dev = .ok [Ev.close] ∧
      tr = [Ev.getDriver, Ev.openDev] ++ ts1 ++ ts2 ++ ts3 ++ ts4 ++ ts5 ++ [Ev.close] := by
  unfold workflow at hx
  cases h1 : expandArg expand w.config_file with
  | error e1 => simp [h1] at hx
  | ok cf =>
  simp only [h1] at hx
  cases h2 : expandArg expand w.diff_file with
  | error e2 => simp [h2] at hx
  | ok df =>
  simp only [h2] at hx
  cases h3 : expandArg expand w.archive_file with
  | error e3 => simp [h3] at hx
  | ok af =>
  simp only [h3] at hx
  cases h4 : expandArg expand w.candidate_file with
  | error e4 => simp [h4] at hx
  | ok caf =>
  simp only [h4] at hx
  by_cases hh : w.hostname.isNone
  · simp [hh] at hx
  simp only [hh, Bool.false_eq_true, if_false] at hx
  by_cases hu : w.username.isNone
  · simp [hu] at hx
  simp only [hu, Bool.false_eq_true, if_false] at hx
  by_cases ho : w.dev_os.isNone
  · simp [ho] at hx
  simp only [ho, Bool.false_eq_true, if_false] at hx
  cases h5 : dev.driverR with
  | error e5 => simp [h5] at hx
  | ok u5 =>
  simp only [h5] at hx
  cases h6 : dev.openR with
  | error e6 => simp [h6] at hx
  | ok u6 =>
  simp only [h6] at hx
  cases h7 : archiveStage af dev with
  | error p7 =>
      obtain ⟨ts7, o7⟩ := p7
      obtain ⟨s7, rfl⟩ := archiveStage_error_shape _ _ _ _ h7
      simp [h7] at hx
  | ok ts1 =>
  simp only [h7] at hx
  cases h8 : loadStage w.replace_config cf w.config dev with
  | error p8 =>
      obtain ⟨ts8, o8⟩ := p8
      obtain ⟨s8, rfl⟩ := loadStage_error_shape _ _ _ _ _ _ h8
      simp [h8] at hx
  | ok ts2 =>
  simp only [h8] at hx
  cases h9 : diffStage w.get_diffs df dev with
  | error p9 =>
      obtain ⟨ts9, o9⟩ := p9
      obtain ⟨s9, rfl⟩ := diffStage_error_shape _ _ _ _ _ h9
      simp [h9] at hx
  | ok p9 =>
  obtain ⟨ts3, changed, diff⟩ := p9
  simp only [h9] at hx
  cases h10 : candidateStage caf dev with
  | error p10 =>
      obtain ⟨ts10, o10⟩ := p10
      obtain ⟨s10, rfl⟩ := candidateStage_error_shape _ _ _ _ h10
      simp [h10] at hx
  | ok ts4 =>
  simp only [h10] at hx
  cases h11 : commitStage cm w.commit_changes w.message changed dev with
  | error p11 =>
      obtain ⟨ts11, o11⟩ := p11
      obtain ⟨s11, rfl⟩ := commitStage_error_shape _ _ _ _ _ _ _ h11
      simp [h11] at hx
  | ok ts5 =>
  simp only [h11] at hx
  cases h12 : closeStage dev with
  | error p12 =>
      obtain ⟨ts12, o12⟩ := p12
      obtain ⟨s12, rfl⟩ := closeStage_error_shape _ _ _ h12
      simp [h12] at hx
  | ok ts6 =>
  simp only [h12, Prod.mk.injEq, Outcome.exited.injEq] at hx
  obtain ⟨htr, hch, hd, hm⟩ := hx
  subst hch hd hm
  subst htr
  refine ⟨rfl, cf, df, af, caf, ts1, ts2, ts3, ts4, ts5, rfl, rfl, rfl, rfl, h7, h8, h9,
    h10, h11, ?_, ?_⟩
  · rw [closeStage_ok dev ts6 h12]
  · simp [closeStage_ok dev ts6 h12]

theorem ev_five_false (e : Ev)
    (h : (e.isCommit || e.isDiscard || e.isClose || e.isCompare || e.isSaveDiff) = false) :
    e.isCommit = false ∧ e.isDiscard = false ∧ e.isClose = false ∧
      e.isCompare = false ∧ e.isSaveDiff = false := by
  simpa [and_assoc] using h

theorem ev_three_false (e : Ev)
    (h : (e.isCommit || e.isDiscard || e.isClose) = false) :
    e.isCommit = false ∧ e.isDiscard = false ∧ e.isClose = false := by
  simpa [and_assoc] using h

/-- No run of the workflow ever calls `commit_config`: the only code path
that would reach it first evaluates `message("commit_comment")`, which
raises. -/
theorem workflow_no_commit (w : WParams) (cm : Bool) (dev : Device)
    (expand : String → String) :
    ∀ e ∈ (workflow w cm dev expand).1, e.isCommit = false := by
  intro e he
  rcases mem_workflow w cm dev expand e he with
    h | h | ⟨af, h⟩ | ⟨cf, h⟩ | ⟨df, h⟩ | ⟨caf, h⟩ | ⟨ch, h⟩ | h
  · subst h; rfl
  · subst h; rfl
  · exact (ev_five_false e (archiveStage_events af dev e h)).1
  · exact (ev_five_false e (loadStage_events _ cf _ dev e h)).1
  · exact (ev_three_false e (diffStage_events _ df dev e h)).1
  · exact (ev_five_false e (candidateStage_events caf dev e h)).1
  · rw [commitStage_events cm _ _ ch dev e h]; rfl
  · rw [closeStage_events dev e h]; rfl

/-- With diffing disabled, no `compare_config` call and no diff-file write
occurs anywhere in the run. -/
theorem workflow_no_diff_events (w : WParams) (cm : Bool) (dev : Device)
    (expand : String → String) (hgd : w.get_diffs.truthy = false) :
    ∀ e ∈ (workflow w cm dev expand).1, e.isCompare = false ∧ e.isSaveDiff = false := by
  intro e he
  rcases mem_workflow w cm dev expand e he with
    h | h | ⟨af, h⟩ | ⟨cf, h⟩ | ⟨df, h⟩ | ⟨caf, h⟩ | ⟨ch, h⟩ | h
  · subst h; exact ⟨rfl, rfl⟩
  · subst h; exact ⟨rfl, rfl⟩
  · exact ⟨(ev_five_false e (archiveStage_events af dev e h)).2.2.2.1,
      (ev_five_false e (archiveStage_events af dev e h)).2.2.2.2⟩
  · exact ⟨(ev_five_false e (loadStage_events _ cf _ dev e h)).2.2.2.1,
      (ev_five_false e (loadStage_events _ cf _ dev e h)).2.2.2.2⟩
  · rw [diffStage_not_truthy _ df dev hgd] at h
    simp [stTrace3] at h
  · exact ⟨(ev_five_false e (candidateStage_events caf dev e h)).2.2.2.1,
      (ev_five_false e (candidateStage_events caf dev e h)).2.2.2.2⟩
  · rw [commitStage_events cm _ _ ch dev e h]; exact ⟨rfl, rfl⟩
  · rw [closeStage_events dev e h]; exact ⟨rfl, rfl⟩

/-- A run that reaches `exit_json` closed the device exactly once. -/
theorem workflow_close_count (w : WParams) (cm : Bool) (dev : Device)
    (expand : String → String) (tr : List Ev) (ch : Bool) (d m : Option String)
    (hx : workflow w cm dev expand = (tr, Outcome.exited ch d m)) :
    tr.countP Ev.isClose = 1 := by
  obtain ⟨-, cf, df, af, caf, ts1, ts2, ts3, ts4, ts5, -, -, -, -, h7, h8, h9, h10, h11,
    -, htr⟩ := workflow_exited w cm dev expand tr ch d m hx
  have e1 : ∀ e ∈ ts1, Ev.isClose e = false := fun e he =>
    (ev_five_false e (archiveStage_events af dev e (by simpa only [h7, stTrace] using he))).2.2.1
  have e2 : ∀ e ∈ ts2, Ev.isClose e = false := fun e he =>
    (ev_five_false e (loadStage_events w.replace_config cf w.config dev e (by simpa only [h8, stTrace] using he))).2.2.1
  have e3 : ∀ e ∈ ts3, Ev.isClose e = false := fun e he =>
    (ev_three_false e (diffStage_events w.get_diffs df dev e (by simpa only [h9, stTrace3] using he))).2.2
  have e4 : ∀ e ∈ ts4, Ev.isClose e = false := fun e he =>
    (ev_five_false e (candidateStage_events caf dev e (by simpa only [h10, stTrace] using he))).2.2.1
  have e5 : ∀ e ∈ ts5, Ev.isClose e = false := fun e he => by
    rw [commitStage_events cm w.commit_changes w.message ch dev e (by simpa only [h11, stTrace] using he)]
    rfl
  have c1 : ts1.countP Ev.isClose = 0 := List.countP_eq_zero.mpr (fun e he => by
    simp [e1 e he])
  have c2 : ts2.countP Ev.isClose = 0 := List.countP_eq_zero.mpr (fun e he => by
    simp [e2 e he])
  have c3 : ts3.countP Ev.isClose = 0 := List.countP_eq_zero.mpr (fun e he => by
    simp [e3 e he])
  have c4 : ts4.countP Ev.isClose = 0 := List.countP_eq_zero.mpr (fun e he => by
    simp [e4 e he])
  have c5 : ts5.countP Ev.isClose = 0 := List.countP_eq_zero.mpr (fun e he => by
    simp [e5 e he])
  subst htr
  simp [List.countP_append, List.countP_cons, c1, c2, c3, c4, c5, Ev.isClose]

/-- In check mode, or when `commit_changes` is falsy, a run that reaches
`exit_json` discarded the candidate exactly once. -/
theorem workflow_discard_count (w : WParams) (cm : Bool) (dev : Device)
    (expand : String → String) (tr : List Ev) (ch : Bool) (d m : Option String)
    (hdry : (cm || !w.commit_changes.truthy) = true)
    (hx : workflow w cm dev expand = (tr, Outcome.exited ch d m)) :
    tr.countP Ev.isDiscard = 1 := by
  obtain ⟨-, cf, df, af, caf, ts1, ts2, ts3, ts4, ts5, -, -, -, -, h7, h8, h9, h10, h11,
    -, htr⟩ := workflow_exited w cm dev expand tr ch d m hx
  have e1 : ∀ e ∈ ts1, Ev.isDiscard e = false := fun e he =>
    (ev_five_false e (archiveStage_events af dev e (by simpa only [h7, stTrace] using he))).2.1
  have e2 : ∀ e ∈ ts2, Ev.isDiscard e = false := fun e he =>
    (ev_five_false e (loadStage_events w.replace_config cf w.config dev e (by simpa only [h8, stTrace] using he))).2.1
  have e3 : ∀ e ∈ ts3, Ev.isDiscard e = false := fun e he =>
    (ev_three_false e (diffStage_events w.get_diffs df dev e (by simpa only [h9, stTrace3] using he))).2.1
  have e4 : ∀ e ∈ ts4, Ev.isDiscard e = false := fun e he =>
    (ev_five_false e (candidateStage_events caf dev e (by simpa only [h10, stTrace] using he))).2.1
  have h5 : ts5 = [Ev.discard] := commitStage_ok_dryrun cm _ _ ch dev hdry ts5 h11
  have c1 : ts1.countP Ev.isDiscard = 0 := List.countP_eq_zero.mpr (fun e he => by
    simp [e1 e he])
  have c2 : ts2.countP Ev.isDiscard = 0 := List.countP_eq_zero.mpr (fun e he => by
    simp [e2 e he])
  have c3 : ts3.countP Ev.isDiscard = 0 := List.countP_eq_zero.mpr (fun e he => by
    simp [e3 e he])
  have c4 : ts4.countP Ev.isDiscard = 0 := List.countP_eq_zero.mpr (fun e he => by
    simp [e4 e he])
  subst htr h5
  simp [List.countP_append, List.countP_cons, c1, c2, c3, c4, Ev.isDiscard]

/-- In a successful run with diffing enabled, `changed` and the reported diff
come from `compare_config`: `changed = len(diff) > 0`. -/
theorem workflow_exited_changed_of_compare (w : WParams) (cm : Bool) (dev : Device)
    (expand : String → String) (tr : List Ev) (ch : Bool) (d m : Option String) (s : String)
    (hgd : w.get_diffs.truthy = true) (hcmp : dev.compareR = .ok s)
    (hx : workflow w cm dev expand = (tr, Outcome.exited ch d m)) :
    ch = decide (0 < s.length) ∧ d = some s := by
  obtain ⟨-, cf, df, af, caf, ts1, ts2, ts3, ts4, ts5, -, -, -, -, -, -, h9, -, -, -, -⟩ :=
    workflow_exited w cm dev expand tr ch d m hx
  exact diffStage_ok_changed _ df dev s hgd hcmp ts3 ch d h9

/-- In a successful run with diffing disabled, `changed` is `True` and the
reported diff and message are `None`. -/
theorem workflow_exited_no_diffs (w : WParams) (cm : Bool) (dev : Device)
    (expand : String → String) (tr : List Ev) (ch : Bool) (d m : Option String)
    (hgd : w.get_diffs.truthy = false)
    (hx : workflow w cm dev expand = (tr, Outcome.exited ch d m)) :
    ch = true ∧ d = Option.none ∧ m = Option.none := by
  obtain ⟨hm, cf, df, af, caf, ts1, ts2, ts3, ts4, ts5, -, -, -, -, -, -, h9, -, -, -, -⟩ :=
    workflow_exited w cm dev expand tr ch d m hx
  rw [diffStage_not_truthy _ df dev hgd] at h9
  obtain ⟨-, hch, hd⟩ := by simpa using h9.symm
  exact ⟨hch, hd, hm.trans hd⟩

/-! ## `runMain`-level glue -/

theorem runMain_noLog_raised (a : ModuleArgs) (cm : Bool) (dev : Device)
    (expand : String → String) (v : PyVal)
    (h : noLogCrash (toDict (dictGet (initParams a) "provider")) = some v) :
    runMain a cm dev expand =
      ([], Outcome.raised
        ("AttributeError: '" ++ v.typeName ++ "' object has no attribute 'get'")) := by
  simp only [runMain, h]

theorem runMain_raised (a : ModuleArgs) (cm : Bool) (dev : Device) (expand : String → String)
    (hnl : noLogCrash (toDict (dictGet (initParams a) "provider")) = Option.none)
    (h : dictGet? (resolvedParams a) "commit_comment" = Option.none) :
    runMain a cm dev expand = ([], Outcome.raised "KeyError: 'commit_comment'") := by
  simp only [runMain, hnl, h]

theorem runMain_workflow (a : ModuleArgs) (cm : Bool) (dev : Device) (expand : String → String)
    (msg : PyVal)
    (hnl : noLogCrash (toDict (dictGet (initParams a) "provider")) = Option.none)
    (h : dictGet? (resolvedParams a) "commit_comment" = some msg) :
    runMain a cm dev expand = workflow (wParamsOf (resolvedParams a) msg) cm dev expand := by
  simp only [runMain, hnl, h]

/-- A falsy path value is not expanded (`if config_file:` etc. is skipped). -/
theorem expandArg_falsy (expand : String → String) (v : PyVal) (h : v.truthy = false) :
    expandArg expand v = .ok v := by
  simp [expandArg, h]

/-! ## Concrete fixtures for counterexamples and witnesses -/

/-- A device on which every call succeeds; its diff is `"+x=true"`. -/
def okDevice : Device :=
  { driverR := .ok ()
    openR := .ok ()
    getRunningR := .ok "running-cfg"
    loadR := .ok ()
    compareR := .ok "+x=true"
    getCandidateR := .ok "candidate-cfg"
    discardR := .ok ()
    closeR := .ok ()
    saveR := fun _ => .ok () }

/-- Well-formed arguments with no provider bundle: inline config, identity
fields set, `commit_changes=false`, everything else defaulted. -/
def bareArgs : ModuleArgs :=
  { hostname := some "router1"
    username := some "admin"
    password := some "pw"
    provider := Option.none
    timeout := Option.none
    optional_args := Option.none
    config_file := Option.none
    config := some "set x true"
    dev_os := some "eos"
    commit_changes := false
    replace_config := Option.none
    diff_file := Option.none
    get_diffs := Option.none
    archive_file := Option.none
    candidate_file := Option.none }

/-- Like `bareArgs`, but with a provider bundle smuggling in a
`commit_comment` entry, which is the only way past line 246. -/
def commentedArgs : ModuleArgs :=
  { bareArgs with provider := some [("commit_comment", PyVal.str "c")] }

/-- The scenario input of claim C2: `commit_changes=true`,
`replace_config=false` (default), inline `config`, `get_diffs=true`
(default), no provider. -/
def scenarioArgs : ModuleArgs :=
  { bareArgs with commit_changes := true }

/-- The same scenario, with a provider entry supplying `commit_comment` so
the run survives the line-246 lookup. -/
def scenarioProvArgs : ModuleArgs :=
  { scenarioArgs with provider := some [("commit_comment", PyVal.str "c")] }

/-- Arguments whose archive path is set (used to show failure paths skip
the close). -/
def archiveArgs : ModuleArgs :=
  { commentedArgs with archive_file := some "/tmp/archive" }

/-- A device whose running-config fetch raises. -/
def failingGetDevice : Device :=
  { okDevice with getRunningR := .error "timeout" }

/-- Explicit `get_diffs=false` with a provider bundle trying to set
`get_diffs: true`. -/
def falseGetDiffsArgs : ModuleArgs :=
  { bareArgs with
    get_diffs := some false
    provider := some [("get_diffs", PyVal.bool true), ("commit_comment", PyVal.str "c")] }

/-! ## Claims -/

/-- C1, counterexample: the claim says no invocation of `main` can proceed
past line 246, but a provider bundle containing a `commit_comment` entry
makes the merge loop create that key in `module.params`, and the run then
proceeds through the whole workflow to `exit_json`. -/
theorem C1_counterexample :
    runMain commentedArgs false okDevice id =
      ([Ev.getDriver, Ev.openDev, Ev.loadMergeConfig (PyVal.str "set x true"), Ev.compare,
        Ev.discard, Ev.close],
       Outcome.exited true (some "+x=true") (some "+x=true")) := rfl

/-- C1, amended: every invocation whose provider bundle has no
`commit_comment` key (in particular every invocation without a provider)
raises an uncaught exception before proceeding past line 246, with no
validation and no device interaction: the `KeyError` of the line-246 lookup
itself, or — when the bundle's `optional_args` entry is a truthy non-dict —
the `AttributeError` of line 215, which fires even earlier. -/
theorem C1_amended (a : ModuleArgs) (cm : Bool) (dev : Device) (expand : String → String)
    (h : "commit_comment" ∉ (a.provider.getD []).map Prod.fst) :
    (noLogCrash (a.provider.getD []) = Option.none →
      runMain a cm dev expand = ([], Outcome.raised "KeyError: 'commit_comment'")) ∧
    (∀ v, noLogCrash (a.provider.getD []) = some v →
      runMain a cm dev expand =
        ([], Outcome.raised
          ("AttributeError: '" ++ v.typeName ++ "' object has no attribute 'get'"))) := by
  constructor
  · intro hnl
    exact runMain_raised a cm dev expand
      (by rw [toDict_dictGet_initParams_provider]; exact hnl)
      (dictGet?_resolvedParams_commit_comment_none a h)
  · intro v hnl
    exact runMain_noLog_raised a cm dev expand v
      (by rw [toDict_dictGet_initParams_provider]; exact hnl)

theorem C1_amended_witness :
    ("commit_comment" ∉ (bareArgs.provider.getD []).map Prod.fst) ∧
    runMain bareArgs false okDevice id = ([], Outcome.raised "KeyError: 'commit_comment'") :=
  ⟨by simp [bareArgs], (C1_amended bareArgs false okDevice id (by simp [bareArgs])).1 rfl⟩

/-- C2, code bug: on the spec's scenario input the run can never succeed
with a committed candidate.  Without a provider it dies at line 246 with the
`commit_comment` KeyError; smuggling a string `commit_comment` in through
the provider gets to the commit branch, where evaluating
`message("commit_comment")` calls the string and raises `TypeError`, so the
run fails at the install step and `commit_config` is never invoked. -/
theorem C2_code_bug :
    runMain scenarioArgs false okDevice id =
      ([], Outcome.raised "KeyError: 'commit_comment'") ∧
    runMain scenarioProvArgs false okDevice id =
      ([Ev.getDriver, Ev.openDev, Ev.loadMergeConfig (PyVal.str "set x true"), Ev.compare],
        Outcome.failed "cannot install config: 'str' object is not callable") ∧
    (runMain scenarioProvArgs false okDevice id).1.countP Ev.isCommit = 0 :=
  ⟨rfl, rfl, rfl⟩

/-- C3, counterexample: with an `archive_file` configured and a device whose
running-config fetch raises, the session is opened and the run fails via
`fail_json` without `device.close()` ever being called — `main` has no
`finally`, so failure paths after `open` skip the close. -/
theorem C3_counterexample :
    runMain archiveArgs false failingGetDevice id =
      ([Ev.getDriver, Ev.openDev, Ev.getRunning],
        Outcome.failed "cannot retrieve running config:timeout") ∧
    (runMain archiveArgs false failingGetDevice id).1.countP Ev.isClose = 0 :=
  ⟨rfl, rfl⟩

/-- C3, amended: `device.close()` is called exactly once on every run that
reaches `exit_json`; on failures after the open, the run exits through
`fail_json` without closing. -/
theorem C3_amended (a : ModuleArgs) (cm : Bool) (dev : Device) (expand : String → String)
    (ch : Bool) (d m : Option String)
    (hx : (runMain a cm dev expand).2 = Outcome.exited ch d m) :
    (runMain a cm dev expand).1.countP Ev.isClose = 1 := by
  cases hnl : noLogCrash (toDict (dictGet (initParams a) "provider")) with
  | some v =>
      rw [runMain_noLog_raised a cm dev expand v hnl] at hx
      simp at hx
  | none =>
  cases hcc : dictGet? (resolvedParams a) "commit_comment" with
  | none =>
      rw [runMain_raised a cm dev expand hnl hcc] at hx
      simp at hx
  | some msg =>
      rw [runMain_workflow a cm dev expand msg hnl hcc] at hx ⊢
      exact workflow_close_count _ cm dev expand _ ch d m (by rw [← hx])

theorem C3_amended_witness :
    (runMain commentedArgs false okDevice id).2 =
      Outcome.exited true (some "+x=true") (some "+x=true") ∧
    (runMain commentedArgs false okDevice id).1.countP Ev.isClose = 1 :=
  ⟨rfl, C3_amended commentedArgs false okDevice id true (some "+x=true") (some "+x=true") rfl⟩

/-- C4, counterexample: the claim says an explicit boolean `False` is
treated as unset and overridden by the bundle, but the `is not False` guard
skips the merge entirely, so an explicit `get_diffs=false` survives a
provider entry `get_diffs: true` unchanged. -/
theorem C4_counterexample :
    dictGet (resolvedParams falseGetDiffsArgs) "get_diffs" = PyVal.bool false ∧
    dictGet (resolvedParams falseGetDiffsArgs) "get_diffs" ≠ PyVal.bool true := by
  constructor
  · rfl
  · intro h
    have h' : PyVal.bool false = PyVal.bool true :=
      (show dictGet (resolvedParams falseGetDiffsArgs) "get_diffs" = PyVal.bool false from
        rfl).symm.trans h
    simp at h'

/-- C4, amended: for a key the provider bundle carries (keys distinct), a
truthy explicit value wins; an explicit boolean `False` is preserved as-is
(the bundle does not override it); any other falsy explicit value (absent,
`None`, empty, zero) is replaced by the bundle's value. -/
theorem C4_amended (params provider : Dict) (k : String) (pv : PyVal)
    (hmem : (k, pv) ∈ provider) (hnd : (provider.map Prod.fst).Nodup) :
    ((dictGet params k).truthy = true →
      dictGet (mergeProvider params provider) k = dictGet params k) ∧
    (dictGet params k = PyVal.bool false →
      dictGet (mergeProvider params provider) k = PyVal.bool false) ∧
    ((dictGet params k).truthy = false → dictGet params k ≠ PyVal.bool false →
      dictGet (mergeProvider params provider) k = pv) :=
  ⟨fun ht => dictGet_mergeProvider_of_truthy provider params k ht,
   fun hf => dictGet_mergeProvider_of_bool provider params k false hf,
   fun hfalsy hnf => dictGet_mergeProvider_of_falsy provider params k pv hmem hnd hfalsy hnf⟩

theorem C4_amended_witness :
    (("username", PyVal.str "u") ∈ ([("username", PyVal.str "u")] : Dict)) ∧
    dictGet (mergeProvider [("username", PyVal.none)] [("username", PyVal.str "u")])
      "username" = PyVal.str "u" :=
  ⟨List.mem_singleton.mpr rfl,
   (C4_amended [("username", PyVal.none)] [("username", PyVal.str "u")] "username"
      (PyVal.str "u") (List.mem_singleton.mpr rfl) (by simp)).2.2 rfl
      (fun h => PyVal.noConfusion h)⟩

/-- Neither `config` nor `config_file`, but an archive path configured. -/
def noConfigArgs : ModuleArgs :=
  { commentedArgs with
    config := Option.none
    archive_file := some "/tmp/archive" }

/-- Resolved workflow parameters with no config source and an archive path
(for the claim C5 witness). -/
def c5wParams : WParams :=
  { hostname := PyVal.str "router1"
    username := PyVal.str "admin"
    dev_os := PyVal.str "eos"
    password := PyVal.str "pw"
    timeout := PyVal.int 60
    config_file := PyVal.none
    config := PyVal.none
    commit_changes := PyVal.bool false
    replace_config := PyVal.bool false
    diff_file := PyVal.none
    get_diffs := PyVal.bool true
    archive_file := PyVal.str "/tmp/a"
    candidate_file := PyVal.none
    message := PyVal.str "c" }

/-- C5, counterexample: with neither config source supplied the run does
fail with the expected message, but only after the driver was resolved, the
connection opened, and the running-config archive fetched and written — not
"before any interaction with the device" as claimed. -/
theorem C5_counterexample :
    runMain noConfigArgs false okDevice id =
      ([Ev.getDriver, Ev.openDev, Ev.getRunning,
        Ev.saveArchive (PyVal.str "/tmp/archive") "running-cfg"],
       Outcome.failed "You have to specify either config or config_file") := rfl

/-- C5, amended: when neither `config` nor `config_file` is truthy (and the
identity fields pass, the driver resolves, the connection opens, and any
archive step succeeds), the run fails with "You have to specify either
config or config_file" — but only after the device was opened, and after the
archive was fetched whenever `archive_file` is set. -/
theorem C5_amended (w : WParams) (cm : Bool) (dev : Device) (expand : String → String)
    (df af caf : PyVal) (rc : String)
    (hcf : w.config_file.truthy = false) (hc : w.config.truthy = false)
    (hh : w.hostname.isNone = false) (hu : w.username.isNone = false)
    (ho : w.dev_os.isNone = false)
    (hdf : expandArg expand w.diff_file = .ok df)
    (haf : expandArg expand w.archive_file = .ok af)
    (hcaf : expandArg expand w.candidate_file = .ok caf)
    (hdr : dev.driverR = .ok ()) (hop : dev.openR = .ok ())
    (hrun : dev.getRunningR = .ok rc) (hsv : ∀ p, dev.saveR p = .ok ()) :
    (workflow w cm dev expand).2 =
      Outcome.failed "You have to specify either config or config_file" ∧
    Ev.openDev ∈ (workflow w cm dev expand).1 ∧
    (af.isNone = false → Ev.getRunning ∈ (workflow w cm dev expand).1) := by
  have hload : loadStage w.replace_config w.config_file w.config dev =
      .error ([], .failed "You have to specify either config or config_file") := by
    unfold loadStage
    simp [hcf, hc]
  unfold workflow
  simp only [expandArg_falsy expand w.config_file hcf, hdf, haf, hcaf, hh, hu, ho,
    Bool.false_eq_true, if_false, hdr, hop]
  by_cases hafn : af.isNone
  · have ha : archiveStage af dev = .ok [] := by
      unfold archiveStage
      rw [if_pos hafn]
    simp only [ha, hload]
    exact ⟨by simp, by simp, fun hcontra => by simp_all⟩
  · have ha : archiveStage af dev = .ok [Ev.getRunning, Ev.saveArchive af rc] := by
      unfold archiveStage
      simp [hafn, hrun, hsv af]
    simp only [ha, hload]
    exact ⟨by simp, by simp, fun _ => by simp⟩

theorem C5_amended_witness :
    (c5wParams.config_file.truthy = false ∧ c5wParams.config.truthy = false) ∧
    (workflow c5wParams false okDevice id).2 =
      Outcome.failed "You have to specify either config or config_file" :=
  ⟨⟨rfl, rfl⟩,
   (C5_amended c5wParams false okDevice id PyVal.none (PyVal.str "/tmp/a") PyVal.none
      "running-cfg" rfl rfl rfl rfl rfl rfl rfl rfl rfl rfl rfl (fun _ => rfl)).1⟩

/-- Arguments with an explicitly empty username (and the provider
`commit_comment` needed to get past line 246). -/
def emptyUserArgs : ModuleArgs :=
  { commentedArgs with username := some "" }

/-- C6, counterexample: the check at lines 256-259 tests `val is None` only,
so an empty-string username passes validation and the connection is opened
and the whole run succeeds — the claim that an empty string also triggers
the validation failure is false. -/
theorem C6_counterexample :
    runMain emptyUserArgs false okDevice id =
      ([Ev.getDriver, Ev.openDev, Ev.loadMergeConfig (PyVal.str "set x true"), Ev.compare,
        Ev.discard, Ev.close],
       Outcome.exited true (some "+x=true") (some "+x=true")) := rfl

/-- C6, amended: after resolution (and successful path expansion), the run
fails with "<field> is required" before any driver resolution or connection
if and only if hostname, username or dev_os is `None` — tested with
`is None` in that order, so empty strings pass — and when all three are
non-`None` (empty strings included) driver resolution is reached. -/
theorem C6_amended (w : WParams) (cm : Bool) (dev : Device) (expand : String → String)
    (cf df af caf : PyVal)
    (h1 : expandArg expand w.config_file = .ok cf)
    (h2 : expandArg expand w.diff_file = .ok df)
    (h3 : expandArg expand w.archive_file = .ok af)
    (h4 : expandArg expand w.candidate_file = .ok caf) :
    (w.hostname.isNone = true →
      workflow w cm dev expand = ([], Outcome.failed "hostname is required")) ∧
    (w.hostname.isNone = false → w.username.isNone = true →
      workflow w cm dev expand = ([], Outcome.failed "username is required")) ∧
    (w.hostname.isNone = false → w.username.isNone = false → w.dev_os.isNone = true →
      workflow w cm dev expand = ([], Outcome.failed "dev_os is required")) ∧
    (w.hostname.isNone = false → w.username.isNone = false → w.dev_os.isNone = false →
      Ev.getDriver ∈ (workflow w cm dev expand).1) := by
  unfold workflow
  simp only [h1, h2, h3, h4]
  refine ⟨fun hh => by simp [hh], fun hh hu => by simp [hh, hu],
    fun hh hu ho => by simp [hh, hu, ho], fun hh hu ho => ?_⟩
  simp only [hh, hu, ho, Bool.false_eq_true, if_false]
  repeat' split
  all_goals simp

def c6wParams : WParams :=
  { c5wParams with hostname := PyVal.none }

theorem C6_amended_witness :
    c6wParams.hostname.isNone = true ∧
    workflow c6wParams false okDevice id = ([], Outcome.failed "hostname is required") :=
  ⟨rfl,
   (C6_amended c6wParams false okDevice id PyVal.none PyVal.none (PyVal.str "/tmp/a")
      PyVal.none rfl rfl rfl rfl).1 rfl⟩

/-- A device whose `compare_config` raises. -/
def compareFailDevice : Device :=
  { okDevice with compareR := .error "boom" }

/-- C7, counterexample: a dry run (`commit_changes=false`) whose
`compare_config` raises terminates through `fail_json` with the candidate
already loaded (the merge-load call is in the trace) and `discard_config`
never called — so "the candidate is always discarded" is false for dry runs
that fail between the load and the commit/discard step. -/
theorem C7_counterexample :
    runMain commentedArgs false compareFailDevice id =
      ([Ev.getDriver, Ev.openDev, Ev.loadMergeConfig (PyVal.str "set x true"), Ev.compare],
        Outcome.failed "cannot diff config: boom") ∧
    (runMain commentedArgs false compareFailDevice id).1.countP Ev.isDiscard = 0 :=
  ⟨rfl, rfl⟩

/-- C7, amended: whenever check mode is active or `commit_changes` is false,
`commit_config` never appears in the trace (so the device's running
configuration is never changed by a commit), and any such run that reaches
`exit_json` discarded the candidate exactly once; a dry run that fails after
the load terminates via `fail_json` without the discard.  (The provider
bundle cannot flip `commit_changes`: booleans survive the merge
unchanged.) -/
theorem C7_theorem (a : ModuleArgs) (cm : Bool) (dev : Device) (expand : String → String)
    (h : cm = true ∨ a.commit_changes = false) :
    (runMain a cm dev expand).1.countP Ev.isCommit = 0 ∧
    (∀ ch d m, (runMain a cm dev expand).2 = Outcome.exited ch d m →
      (runMain a cm dev expand).1.countP Ev.isDiscard = 1) := by
  cases hnl : noLogCrash (toDict (dictGet (initParams a) "provider")) with
  | some v =>
      rw [runMain_noLog_raised a cm dev expand v hnl]
      exact ⟨rfl, fun ch d m hx => by simp at hx⟩
  | none =>
  cases hcc : dictGet? (resolvedParams a) "commit_comment" with
  | none =>
      rw [runMain_raised a cm dev expand hnl hcc]
      exact ⟨rfl, fun ch d m hx => by simp at hx⟩
  | some msg =>
      rw [runMain_workflow a cm dev expand msg hnl hcc]
      refine ⟨List.countP_eq_zero.mpr (fun e he => by
        simp [workflow_no_commit _ cm dev expand e he]), ?_⟩
      intro ch d m hx
      refine workflow_discard_count _ cm dev expand _ ch d m ?_ (by rw [← hx])
      have hcc2 : (wParamsOf (resolvedParams a) msg).commit_changes =
          PyVal.bool a.commit_changes := resolvedParams_commit_changes a
      rw [hcc2]
      rcases h with h | h
      · simp [h]
      · simp [h, PyVal.truthy]

theorem C7_witness :
    commentedArgs.commit_changes = false ∧
    (runMain commentedArgs false okDevice id).1.countP Ev.isDiscard = 1 :=
  ⟨rfl,
   (C7_theorem commentedArgs false okDevice id (Or.inr rfl)).2 true (some "+x=true")
      (some "+x=true") rfl⟩

/-- A device whose comparison reports an empty diff. -/
def emptyDiffDevice : Device :=
  { okDevice with compareR := .ok "" }

/-- C8: with `get_diffs` left true and `compare_config` returning the empty
diff, `commit_config` never appears in the trace (for any `commit_changes`
and check-mode setting) and a successful run reports `changed = false`. -/
theorem C8_theorem (a : ModuleArgs) (cm : Bool) (dev : Device) (expand : String → String)
    (hgd : a.get_diffs.getD true = true) (hcmp : dev.compareR = .ok "") :
    (runMain a cm dev expand).1.countP Ev.isCommit = 0 ∧
    (∀ ch d m, (runMain a cm dev expand).2 = Outcome.exited ch d m → ch = false) := by
  cases hnl : noLogCrash (toDict (dictGet (initParams a) "provider")) with
  | some v =>
      rw [runMain_noLog_raised a cm dev expand v hnl]
      exact ⟨rfl, fun ch d m hx => by simp at hx⟩
  | none =>
  cases hcc : dictGet? (resolvedParams a) "commit_comment" with
  | none =>
      rw [runMain_raised a cm dev expand hnl hcc]
      exact ⟨rfl, fun ch d m hx => by simp at hx⟩
  | some msg =>
      rw [runMain_workflow a cm dev expand msg hnl hcc]
      refine ⟨List.countP_eq_zero.mpr (fun e he => by
        simp [workflow_no_commit _ cm dev expand e he]), ?_⟩
      intro ch d m hx
      have hw : (wParamsOf (resolvedParams a) msg).get_diffs.truthy = true := by
        have h0 : (wParamsOf (resolvedParams a) msg).get_diffs =
            PyVal.bool (a.get_diffs.getD true) := resolvedParams_get_diffs a
        rw [h0, hgd]
        rfl
      have hres := workflow_exited_changed_of_compare _ cm dev expand _ ch d m "" hw hcmp
        (by rw [← hx])
      simpa using hres.1

theorem C8_witness :
    (scenarioProvArgs.get_diffs.getD true = true ∧
      emptyDiffDevice.compareR = Except.ok "") ∧
    (runMain scenarioProvArgs false emptyDiffDevice id).2 =
      Outcome.exited false (some "") (some "") ∧
    (runMain scenarioProvArgs false emptyDiffDevice id).1.countP Ev.isCommit = 0 :=
  ⟨⟨rfl, rfl⟩, rfl, (C8_theorem scenarioProvArgs false emptyDiffDevice id rfl rfl).1⟩

/-- Arguments with diffing disabled. -/
def noDiffArgs : ModuleArgs :=
  { commentedArgs with get_diffs := some false }

/-- C9: with `get_diffs=false`, `compare_config` is never called and no
diff-file write happens (even if `diff_file` is set), and a successful run
reports `changed = true` with the diff and message both `None`. -/
theorem C9_theorem (a : ModuleArgs) (cm : Bool) (dev : Device) (expand : String → String)
    (hgd : a.get_diffs = some false) :
    (runMain a cm dev expand).1.countP Ev.isCompare = 0 ∧
    (runMain a cm dev expand).1.countP Ev.isSaveDiff = 0 ∧
    (∀ ch d m, (runMain a cm dev expand).2 = Outcome.exited ch d m →
      ch = true ∧ d = Option.none ∧ m = Option.none) := by
  cases hnl : noLogCrash (toDict (dictGet (initParams a) "provider")) with
  | some v =>
      rw [runMain_noLog_raised a cm dev expand v hnl]
      exact ⟨rfl, rfl, fun ch d m hx => by simp at hx⟩
  | none =>
  cases hcc : dictGet? (resolvedParams a) "commit_comment" with
  | none =>
      rw [runMain_raised a cm dev expand hnl hcc]
      exact ⟨rfl, rfl, fun ch d m hx => by simp at hx⟩
  | some msg =>
      rw [runMain_workflow a cm dev expand msg hnl hcc]
      have hw : (wParamsOf (resolvedParams a) msg).get_diffs.truthy = false := by
        have h0 : (wParamsOf (resolvedParams a) msg).get_diffs =
            PyVal.bool (a.get_diffs.getD true) := resolvedParams_get_diffs a
        rw [h0, hgd]
        rfl
      refine ⟨List.countP_eq_zero.mpr (fun e he => by
          simp [(workflow_no_diff_events _ cm dev expand hw e he).1]),
        List.countP_eq_zero.mpr (fun e he => by
          simp [(workflow_no_diff_events _ cm dev expand hw e he).2]), ?_⟩
      intro ch d m hx
      exact workflow_exited_no_diffs _ cm dev expand _ ch d m hw (by rw [← hx])

theorem C9_witness :
    noDiffArgs.get_diffs = some false ∧
    runMain noDiffArgs false okDevice id =
      ([Ev.getDriver, Ev.openDev, Ev.loadMergeConfig (PyVal.str "set x true"), Ev.discard,
        Ev.close],
       Outcome.exited true Option.none Option.none) ∧
    (runMain noDiffArgs false okDevice id).1.countP Ev.isCompare = 0 :=
  ⟨rfl, rfl, (C9_theorem noDiffArgs false okDevice id rfl).1⟩

/-- C10: with `timeout`, `get_diffs` and `replace_config` left at their
declared defaults (60, True, False), no provider bundle can change any of
them: the truthy defaults win the `or`-merge and the `is not False` guard
skips `replace_config` entirely. -/
theorem C10_theorem (a : ModuleArgs) (ht : a.timeout = Option.none)
    (hg : a.get_diffs = Option.none) (hr : a.replace_config = Option.none) :
    dictGet (resolvedParams a) "timeout" = PyVal.int 60 ∧
    dictGet (resolvedParams a) "get_diffs" = PyVal.bool true ∧
    dictGet (resolvedParams a) "replace_config" = PyVal.bool false := by
  refine ⟨?_, ?_, ?_⟩
  · have h0 : dictGet (initParams a) "timeout" = PyVal.int 60 := by
      rw [dictGet_initParams_timeout, ht]
      rfl
    have h1 := dictGet_mergeProvider_of_truthy
      (adjustProvider (toDict (dictGet (initParams a) "provider"))) (initParams a)
      "timeout" (by rw [h0]; decide)
    unfold resolvedParams
    rw [h1, h0]
  · have h0 : dictGet (initParams a) "get_diffs" = PyVal.bool true := by
      rw [dictGet_initParams_get_diffs, hg]
      rfl
    unfold resolvedParams
    exact dictGet_mergeProvider_of_bool _ _ _ true h0
  · have h0 : dictGet (initParams a) "replace_config" = PyVal.bool false := by
      rw [dictGet_initParams_replace_config, hr]
      rfl
    unfold resolvedParams
    exact dictGet_mergeProvider_of_bool _ _ _ false h0

/-- Arguments whose provider bundle tries to set `timeout`, `get_diffs` and
`replace_config`. -/
def overrideArgs : ModuleArgs :=
  { bareArgs with
    provider := some [("timeout", PyVal.int 5), ("get_diffs", PyVal.bool false),
      ("replace_config", PyVal.bool true), ("commit_comment", PyVal.str "c")] }

theorem C10_witness :
    (overrideArgs.timeout = Option.none ∧ overrideArgs.get_diffs = Option.none ∧
      overrideArgs.replace_config = Option.none) ∧
    dictGet (resolvedParams overrideArgs) "timeout" = PyVal.int 60 ∧
    dictGet (resolvedParams overrideArgs) "get_diffs" = PyVal.bool true ∧
    dictGet (resolvedParams overrideArgs) "replace_config" = PyVal.bool false :=
  ⟨⟨rfl, rfl, rfl⟩, C10_theorem overrideArgs rfl rfl rfl⟩

end NapalmInstallConfig
